import Mathlib

/-!
Shallow embedding of the Synthline web frontend (hooks `useSynthlineForm`,
`useSynthlineWebSocket`, components `GeneratorSection`, `PromptPreview`,
`ResultsDisplay`) together with a spec-modelled `ConfigurationExpander`
(the engine backend is not part of the frontend sources).
All definitions are translated from the TypeScript sources; JavaScript
string/array truthiness is made explicit.
-/

namespace Synthline

/-- A value that is either a single string or an array of strings
(the TypeScript type `string | string[]` used for multi-valued features). -/
inductive StrOrArr where
  | str (s : String)
  | arr (xs : List String)
deriving DecidableEq, Repr

/-- The `FormData` interface from `app/types.ts`.  Numeric fields are
modelled as integers (none of the verified claims computes with their
fractional part). -/
structure FormData where
  label : String
  label_definition : String
  domain : StrOrArr
  language : StrOrArr
  output_format : String
  temperature : Int
  top_p : Int
  total_samples : Int
  samples_per_prompt : Int
  llm : String
  specification_format : StrOrArr
  specification_level : StrOrArr
  stakeholder : StrOrArr
  prompt_approach : String
  pace_iterations : Int
  pace_actors : Int
  pace_candidates : Int
deriving DecidableEq, Repr

/-- The initial form state from `useSynthlineForm.ts`. -/
def initialFormState : FormData :=
  { label := ""
    label_definition := ""
    domain := .arr []
    language := .arr []
    output_format := "CSV"
    temperature := 1
    top_p := 1
    total_samples := 10
    samples_per_prompt := 5
    llm := "gpt-4.1-nano-2025-04-14"
    specification_format := .arr []
    specification_level := .arr []
    stakeholder := .arr []
    prompt_approach := "Default"
    pace_iterations := 3
    pace_actors := 4
    pace_candidates := 2 }

/-- Names of the fields of `FormData` (the type `keyof FormData`). -/
inductive Field where
  | label | label_definition | domain | language | output_format
  | temperature | top_p | total_samples | samples_per_prompt | llm
  | specification_format | specification_level | stakeholder
  | prompt_approach | pace_iterations | pace_actors | pace_candidates
deriving DecidableEq, Repr

/-- A JavaScript value as seen by `hasValidValue` when indexing
`formData[field]`: a string, an array of strings, or a number. -/
inductive JsValue where
  | str (s : String)
  | arr (xs : List String)
  | num (n : Int)
deriving DecidableEq, Repr

/-- Dynamic field access `formData[field]`. -/
def FormData.getField (fd : FormData) : Field → JsValue
  | .label => .str fd.label
  | .label_definition => .str fd.label_definition
  | .domain => match fd.domain with | .str s => .str s | .arr xs => .arr xs
  | .language => match fd.language with | .str s => .str s | .arr xs => .arr xs
  | .output_format => .str fd.output_format
  | .temperature => .num fd.temperature
  | .top_p => .num fd.top_p
  | .total_samples => .num fd.total_samples
  | .samples_per_prompt => .num fd.samples_per_prompt
  | .llm => .str fd.llm
  | .specification_format =>
      match fd.specification_format with | .str s => .str s | .arr xs => .arr xs
  | .specification_level =>
      match fd.specification_level with | .str s => .str s | .arr xs => .arr xs
  | .stakeholder => match fd.stakeholder with | .str s => .str s | .arr xs => .arr xs
  | .prompt_approach => .str fd.prompt_approach
  | .pace_iterations => .num fd.pace_iterations
  | .pace_actors => .num fd.pace_actors
  | .pace_candidates => .num fd.pace_candidates

/-- `hasValidValue` from `useSynthlineForm.ts`: arrays must be non-empty,
strings must be non-blank after trimming, and any other (numeric) value
is valid because it is neither `undefined` nor `null`. -/
def hasValidValue (fd : FormData) (f : Field) : Bool :=
  match fd.getField f with
  | .arr xs => xs.length > 0
  | .str s => s.trim != ""
  | .num _ => true

/-- `REQUIRED_FIELDS` from `app/constants.ts`. -/
def REQUIRED_FIELDS : List Field :=
  [.label, .label_definition, .domain, .language,
   .specification_format, .specification_level, .stakeholder]

/-- The literal field name, as the TypeScript property key string. -/
def Field.name : Field → String
  | .label => "label"
  | .label_definition => "label_definition"
  | .domain => "domain"
  | .language => "language"
  | .output_format => "output_format"
  | .temperature => "temperature"
  | .top_p => "top_p"
  | .total_samples => "total_samples"
  | .samples_per_prompt => "samples_per_prompt"
  | .llm => "llm"
  | .specification_format => "specification_format"
  | .specification_level => "specification_level"
  | .stakeholder => "stakeholder"
  | .prompt_approach => "prompt_approach"
  | .pace_iterations => "pace_iterations"
  | .pace_actors => "pace_actors"
  | .pace_candidates => "pace_candidates"

/-- `field.replace(/([A-Z])/g, ' $1')`: insert a space before each
upper-case character. -/
def spaceBeforeCaps (s : String) : String :=
  String.mk (s.data.flatMap fun c => if c.isUpper then [' ', c] else [c])

/-- `.replace(/^./, str => str.toUpperCase())`: capitalize the first
character (a no-op on the empty string). -/
def capitalizeFirst (s : String) : String :=
  match s.data with
  | [] => s
  | c :: rest => String.mk (c.toUpper :: rest)

/-- Display name of a missing field as computed in `validateForm`. -/
def displayName (f : Field) : String :=
  capitalizeFirst (spaceBeforeCaps f.name)

/-- `validateForm` from `useSynthlineForm.ts`: returns an error message
listing the missing required fields, or the empty string when the form
is valid. -/
def validateForm (fd : FormData) : String :=
  let missingFields := REQUIRED_FIELDS.filter fun f => !(hasValidValue fd f)
  if missingFields.length > 0 then
    "Please fill in: " ++ String.intercalate ", " (missingFields.map displayName)
  else
    ""

/-- Scores attached to prompts; the frontend only stores and copies them. -/
abbrev Score := Int

/-- The `config` object of an `AtomicPrompt` (`app/types.ts`). -/
structure AtomicConfig where
  label : String
  label_definition : String
  specification_format : StrOrArr
  specification_level : StrOrArr
  stakeholder : StrOrArr
  domain : StrOrArr
  language : StrOrArr
  samples_per_prompt : Int
deriving DecidableEq, Repr

/-- The `AtomicPrompt` interface from `app/types.ts`. -/
structure AtomicPrompt where
  config : AtomicConfig
  prompt : String
  score : Score
deriving DecidableEq, Repr

/-- The `Sample` interface from `app/types.ts`. -/
structure Sample where
  text : String
  label : String
  domain : String
  language : String
deriving DecidableEq, Repr

/-- The `Results` interface from `app/types.ts`. -/
structure Results where
  samples : List Sample
  output_path : Option String
  output_content : String
  output_format : String
  fewer_samples_received : Bool
deriving DecidableEq, Repr

/-- One element of the `optimized_results` array carried by an
`optimize_complete_batch` event. -/
structure OptimizedResult where
  prompt : String
  score : Score
  atomic_config : AtomicConfig
deriving DecidableEq, Repr

/-- The WebSocket messages dispatched on in `useSynthlineWebSocket.ts`,
tagged by their `type` field. -/
inductive WsEvent where
  | progress (p : Nat)
  | promptUpdate (configIndex : Option Nat) (prompt : String) (score : Score)
  | optimizeComplete (optimizedPrompt : String)
  | optimizeCompleteBatch (optimizedResults : List OptimizedResult)
  | generationComplete (samples : List Sample) (outputContent : String)
      (outputFormat : String) (fewerSamplesReceived : Bool)
  | error (message : String)
  | complete
deriving DecidableEq, Repr

/-- The React state owned by `useSynthlineWebSocket`. -/
structure HookState where
  progress : Nat
  status : String
  error : String
  isOptimizingPrompt : Bool
  isPromptOptimized : Bool
  optimizationSuccess : Option String
  currentPrompt : String
  atomicPrompts : List AtomicPrompt
  optimizedAtomicPrompts : List AtomicPrompt
  currentPromptIndex : Nat
  isGenerating : Bool
  results : Option Results
  wsReady : Bool
deriving DecidableEq, Repr

/-- The initial hook state (`useState` initializers in
`useSynthlineWebSocket.ts`); `wsReady` becomes true on `ws.onopen`. -/
def initialHookState : HookState :=
  { progress := 0
    status := ""
    error := ""
    isOptimizingPrompt := false
    isPromptOptimized := false
    optimizationSuccess := none
    currentPrompt := ""
    atomicPrompts := []
    optimizedAtomicPrompts := []
    currentPromptIndex := 0
    isGenerating := false
    results := none
    wsReady := true }

/-- The `setAtomicPrompts` updater of the `prompt_update` branch: when
`config_index` is in range, replace that entry's `prompt` and `score`
by spreading the old entry; otherwise return the list unchanged. -/
def updateAtomicPrompt (l : List AtomicPrompt) (i : Nat) (p : String)
    (sc : Score) : List AtomicPrompt :=
  if h : i < l.length then
    l.set i { l.get ⟨i, h⟩ with prompt := p, score := sc }
  else l

/-- The status text set on `generation_complete` before the shortfall
note is appended. -/
def generationCompleteStatus (n : Nat) : String :=
  "Generation complete! " ++ toString n ++ " samples generated"

/-- The shortfall note appended to the status when
`fewer_samples_received` is set. -/
def fewerSamplesNote : String :=
  " (Note: Fewer samples were received than requested due to token limits)"

/-- The `ws.onmessage` switch of `useSynthlineWebSocket.ts` as a state
transition (the `setTimeout` clearing `optimizationSuccess` is a timer
side effect outside the state transition). -/
def onMessage (st : HookState) : WsEvent → HookState
  | .progress p => { st with progress := p }
  | .promptUpdate configIndex p sc =>
      match configIndex with
      | some i => { st with atomicPrompts := updateAtomicPrompt st.atomicPrompts i p sc }
      | none => { st with currentPrompt := p }
  | .optimizeComplete op =>
      { st with isOptimizingPrompt := false, progress := 100, currentPrompt := op,
                isPromptOptimized := true,
                optimizationSuccess := some "Prompt optimization complete!" }
  | .optimizeCompleteBatch rs =>
      { st with isOptimizingPrompt := false, progress := 100,
                optimizedAtomicPrompts := rs.map fun r =>
                  { config := r.atomic_config, prompt := r.prompt, score := r.score },
                isPromptOptimized := true, currentPromptIndex := 0,
                optimizationSuccess := some "Optimization complete!" }
  | .generationComplete samples oc ofmt fewer =>
      let base := generationCompleteStatus samples.length
      { st with isGenerating := false, progress := 100,
                results := some { samples := samples, output_path := none,
                                  output_content := oc, output_format := ofmt,
                                  fewer_samples_received := fewer },
                status := if fewer then base ++ fewerSamplesNote else base }
  | .error msg =>
      { st with error := msg, isOptimizingPrompt := false, isGenerating := false }
  | .complete => { st with progress := 100 }

/-- One entry of the `optimized_atomic_prompts` payload attached by
`handleGenerate`: `{ config: p.config, optimized_prompt: p.prompt }`. -/
structure OptimizedAtomicPromptPayload where
  config : AtomicConfig
  optimized_prompt : String
deriving DecidableEq, Repr

/-- The JSON body sent by `handleGenerate` to `/api/generate`:
`features` spread from the form plus the two optional optimized-prompt
fields that may be attached to it, and the connection id. -/
structure GenerateRequest where
  features : FormData
  optimized_atomic_prompts : Option (List OptimizedAtomicPromptPayload)
  optimized_prompt : Option String
  connection_id : String
deriving DecidableEq, Repr

/-- The request construction inside `handleGenerate`
(`useSynthlineWebSocket.ts`): optimized prompts are attached only when
`prompt_approach === "PACE"` and `isPromptOptimized`; a non-empty
`optimizedAtomicPrompts` list wins over a non-empty `currentPrompt`. -/
def buildGenerateRequest (fd : FormData) (isPromptOptimized : Bool)
    (optimizedAtomicPrompts : List AtomicPrompt) (currentPrompt : String)
    (connectionId : String) : GenerateRequest :=
  let base : GenerateRequest :=
    { features := fd, optimized_atomic_prompts := none,
      optimized_prompt := none, connection_id := connectionId }
  if fd.prompt_approach = "PACE" ∧ isPromptOptimized then
    if optimizedAtomicPrompts.length > 0 then
      { base with optimized_atomic_prompts := some (optimizedAtomicPrompts.map
          fun p => { config := p.config, optimized_prompt := p.prompt }) }
    else if currentPrompt ≠ "" then
      { base with optimized_prompt := some currentPrompt }
    else base
  else base

/-- The JSON body sent by `handleOptimizePrompt` to
`/api/optimize-prompt`. -/
structure OptimizeRequest where
  features : FormData
  connection_id : String
deriving DecidableEq, Repr

/-- `handleGenerate` up to the point the HTTP request is issued: returns
the updated hook state and the request it sends, or `none` when it
returns early (validation failure or socket not ready). -/
def handleGenerate (fd : FormData) (st : HookState) (connectionId : String) :
    HookState × Option GenerateRequest :=
  let errorMessage := validateForm fd
  if errorMessage ≠ "" then
    ({ st with error := errorMessage }, none)
  else if !st.wsReady then
    ({ st with error := "Connecting to server, please wait..." }, none)
  else
    ({ st with results := none, isGenerating := true, status := "Generating...",
               error := "", progress := 0 },
     some (buildGenerateRequest fd st.isPromptOptimized st.optimizedAtomicPrompts
             st.currentPrompt connectionId))

/-- `handleOptimizePrompt` up to the point the HTTP request is issued. -/
def handleOptimizePrompt (fd : FormData) (st : HookState) (connectionId : String) :
    HookState × Option OptimizeRequest :=
  let errorMessage := validateForm fd
  if errorMessage ≠ "" then
    ({ st with error := errorMessage }, none)
  else if !st.wsReady then
    ({ st with error := "Connecting to server, please wait..." }, none)
  else
    ({ st with isOptimizingPrompt := true, results := none, error := "",
               progress := 0, status := "Optimizing..." },
     some { features := fd, connection_id := connectionId })

/-- What `handleDownload` in `ResultsDisplay.tsx` does: open the saved
file by path, download a blob built from `output_content`, or nothing. -/
inductive DownloadAction where
  | openPath (path : String)
  | blobDownload (content : String) (mimeType : String)
  | nothing
deriving DecidableEq, Repr

/-- JavaScript truthiness of an optional string (`undefined` and `""`
are falsy). -/
def optStrTruthy : Option String → Bool
  | none => false
  | some s => s != ""

/-- `handleDownload` from `ResultsDisplay.tsx`: prefer the saved output
path; otherwise build a blob from `output_content` whose MIME type is
`application/json` when `output_format` is `"json"` and `text/csv`
otherwise. -/
def handleDownload (r : Results) : DownloadAction :=
  if optStrTruthy r.output_path then
    .openPath (r.output_path.getD "")
  else if r.output_content != "" then
    .blobDownload r.output_content
      (if r.output_format = "json" then "application/json" else "text/csv")
  else
    .nothing

/-- A record of the output dataset: exactly the four columns
`text, label, domain, language`. -/
structure SampleRecord where
  text : String
  label : String
  domain : String
  language : String
deriving DecidableEq, Repr

/-- The mapping from a `Sample` to its output record (spec §6: exact and
lossless field-for-field copy). -/
def sampleToRecord (s : Sample) : SampleRecord :=
  { text := s.text, label := s.label, domain := s.domain, language := s.language }

/-- The `onChange` handler of the Samples Per Prompt input in
`GeneratorSection.tsx`: `handleInputChange('samples_per_prompt',
Math.max(1, Number(e.target.value)))`. -/
def onSamplesPerPromptChange (fd : FormData) (n : Int) : FormData :=
  { fd with samples_per_prompt := max 1 n }

/-- The Previous button of `PromptPreview.tsx`:
`Math.max(0, currentPromptIndex - 1)`. -/
def prevPromptIndex (i : Int) : Int := max 0 (i - 1)

/-- The Next button of `PromptPreview.tsx`:
`Math.min(atomicPrompts.length - 1, currentPromptIndex + 1)`. -/
def nextPromptIndex (atomicPrompts : List AtomicPrompt) (i : Int) : Int :=
  min ((atomicPrompts.length : Int) - 1) (i + 1)

/-- Modelled from the spec: a `FeatureSelection` (spec §3) — `label` and
`label_definition` are scalar, while `specification_format`,
`specification_level`, `stakeholder`, `domain` and `language` carry one
or more values, in the order supplied by the caller. -/
structure FeatureSelection where
  label : String
  label_definition : String
  specification_format : List String
  specification_level : List String
  stakeholder : List String
  domain : List String
  language : List String
  samples_per_prompt : Int
deriving DecidableEq, Repr

/-- Modelled from the spec: an `AtomicConfiguration` (spec §3) — exactly
one value per dimension plus the scalar fields and the per-prompt sample
count. -/
structure AtomicConfiguration where
  label : String
  label_definition : String
  specification_format : String
  specification_level : String
  stakeholder : String
  domain : String
  language : String
  samples_per_prompt : Int
deriving DecidableEq, Repr

/-- Builds the `AtomicConfiguration` for one element of the cartesian
product of the five multi-valued dimensions. -/
def mkAtomicConfiguration (label label_definition : String)
    (samples_per_prompt : Int)
    (t : (((String × String) × String) × String) × String) : AtomicConfiguration :=
  { label := label
    label_definition := label_definition
    specification_format := t.1.1.1.1
    specification_level := t.1.1.1.2
    stakeholder := t.1.1.2
    domain := t.1.2
    language := t.2
    samples_per_prompt := samples_per_prompt }

/-- Modelled from the spec: `ConfigurationExpander` (spec §4.1) — the
engine backend is not among the frontend sources; this is the cartesian
product of the multi-valued dimensions in a fixed canonical dimension
order (format, level, stakeholder, domain, language), values within a
dimension kept in caller order. -/
def expandConfigurations (fs : FeatureSelection) : List AtomicConfiguration :=
  ((((fs.specification_format ×ˢ fs.specification_level) ×ˢ fs.stakeholder)
      ×ˢ fs.domain) ×ˢ fs.language).map
    (mkAtomicConfiguration fs.label fs.label_definition fs.samples_per_prompt)

/-- A sequence of edits of the Samples Per Prompt input applied in order
to a form state. -/
def applySppEdits (fd : FormData) (es : List Int) : FormData :=
  es.foldl onSamplesPerPromptChange fd

/-- A concrete feature selection (spec §8, scenario 1): domain has two
values, every other dimension one. -/
def exampleSelection : FeatureSelection :=
  { label := "Functional"
    label_definition := "Describes a function the system must provide"
    specification_format := ["NL"]
    specification_level := ["High"]
    stakeholder := ["End Users"]
    domain := ["Banking", "Healthcare"]
    language := ["English"]
    samples_per_prompt := 5 }

/-- A concrete atomic-prompt config used to instantiate theorems. -/
def exampleConfig : AtomicConfig :=
  { label := "Functional"
    label_definition := "Describes a function the system must provide"
    specification_format := .str "NL"
    specification_level := .str "High"
    stakeholder := .str "End Users"
    domain := .str "Banking"
    language := .str "English"
    samples_per_prompt := 5 }

/-- A concrete atomic prompt used to instantiate theorems. -/
def examplePrompt : AtomicPrompt :=
  { config := exampleConfig, prompt := "Generate 5 requirements", score := 0 }

/-- A concrete generation result with JSON output content and no saved
output path. -/
def exampleResults : Results :=
  { samples := [{ text := "The system shall log in users",
                  label := "Functional", domain := "Banking",
                  language := "English" }]
    output_path := none
    output_content := "[]"
    output_format := "json"
    fewer_samples_received := false }

end Synthline

namespace Synthline

/-- A string with a non-empty left part stays non-empty after appending. -/
lemma string_append_ne_empty (s t : String) (h : 0 < s.length) : s ++ t ≠ "" := by
  intro he
  have hl : (s ++ t).length = 0 := by rw [he]; rfl
  rw [String.length_append] at hl
  omega

/-- Distinct cartesian-product tuples give distinct atomic
configurations. -/
lemma mkAtomicConfiguration_injective (l ld : String) (spp : Int) :
    Function.Injective (mkAtomicConfiguration l ld spp) := by
  intro ⟨⟨⟨⟨a1, a2⟩, a3⟩, a4⟩, a5⟩ ⟨⟨⟨⟨b1, b2⟩, b3⟩, b4⟩, b5⟩ h
  simp only [mkAtomicConfiguration, AtomicConfiguration.mk.injEq] at h
  simp_all

/-- Any sequence of Samples Per Prompt edits keeps the field at least 1. -/
lemma applySppEdits_ge_one (es : List Int) : ∀ fd : FormData,
    1 ≤ fd.samples_per_prompt → 1 ≤ (applySppEdits fd es).samples_per_prompt := by
  induction es with
  | nil => exact fun _ h => h
  | cons e es ih => exact fun fd _ => ih _ (le_max_left 1 _)

/-- C1: when some required field among label, label_definition, domain,
language, specification_format, specification_level, stakeholder has no
valid value, both `handleGenerate` and `handleOptimizePrompt` store an
error message listing exactly the missing fields and return without
issuing any HTTP request. -/
theorem validation_blocks_requests (fd : FormData) (st : HookState) (cid : String)
    (h : ∃ f ∈ REQUIRED_FIELDS, hasValidValue fd f = false) :
    (handleGenerate fd st cid).2 = none ∧
    (handleGenerate fd st cid).1.error = "Please fill in: " ++
      String.intercalate ", "
        ((REQUIRED_FIELDS.filter fun g => !hasValidValue fd g).map displayName) ∧
    (handleOptimizePrompt fd st cid).2 = none ∧
    (handleOptimizePrompt fd st cid).1.error = "Please fill in: " ++
      String.intercalate ", "
        ((REQUIRED_FIELDS.filter fun g => !hasValidValue fd g).map displayName) := by
  obtain ⟨f, hf, hval⟩ := h
  have hfil : f ∈ REQUIRED_FIELDS.filter fun g => !hasValidValue fd g :=
    List.mem_filter.mpr ⟨hf, by simp [hval]⟩
  have hlen : 0 < (REQUIRED_FIELDS.filter fun g => !hasValidValue fd g).length :=
    List.length_pos.mpr (List.ne_nil_of_mem hfil)
  have hvf : validateForm fd = "Please fill in: " ++
      String.intercalate ", "
        ((REQUIRED_FIELDS.filter fun g => !hasValidValue fd g).map displayName) := by
    simp [validateForm, hlen]
  have hne : ("Please fill in: " ++
      String.intercalate ", "
        ((REQUIRED_FIELDS.filter fun g => !hasValidValue fd g).map displayName)) ≠ "" :=
    string_append_ne_empty _ _ (by decide)
  refine ⟨?_, ?_, ?_, ?_⟩ <;>
    simp [handleGenerate, handleOptimizePrompt, hvf, hne]

/-- C1 witness: the initial form state is missing every required field,
so both handlers refuse to issue a request. -/
theorem validation_blocks_requests_witness :
    (handleGenerate initialFormState initialHookState "cid").2 = none ∧
    (handleOptimizePrompt initialFormState initialHookState "cid").2 = none :=
  ⟨(validation_blocks_requests initialFormState initialHookState "cid"
      ⟨Field.domain, by decide, by decide⟩).1,
   (validation_blocks_requests initialFormState initialHookState "cid"
      ⟨Field.domain, by decide, by decide⟩).2.2.1⟩

/-- C2: for a feature selection whose dimensions carry pairwise-distinct
values, the expander produces exactly the product of the dimension
cardinalities, the output has no duplicate configuration, and the output
contains precisely the combinations of the selection's values. -/
theorem expandConfigurations_spec (fs : FeatureSelection)
    (h1 : fs.specification_format.Nodup) (h2 : fs.specification_level.Nodup)
    (h3 : fs.stakeholder.Nodup) (h4 : fs.domain.Nodup) (h5 : fs.language.Nodup) :
    (expandConfigurations fs).length =
      fs.specification_format.length * fs.specification_level.length *
      fs.stakeholder.length * fs.domain.length * fs.language.length ∧
    (expandConfigurations fs).Nodup ∧
    (∀ ac : AtomicConfiguration, ac ∈ expandConfigurations fs ↔
      ac.label = fs.label ∧ ac.label_definition = fs.label_definition ∧
      ac.samples_per_prompt = fs.samples_per_prompt ∧
      ac.specification_format ∈ fs.specification_format ∧
      ac.specification_level ∈ fs.specification_level ∧
      ac.stakeholder ∈ fs.stakeholder ∧
      ac.domain ∈ fs.domain ∧
      ac.language ∈ fs.language) := by
  refine ⟨?_, ?_, ?_⟩
  · simp [expandConfigurations, List.length_product, Nat.mul_assoc]
  · exact ((((h1.product h2).product h3).product h4).product h5).map
      (mkAtomicConfiguration_injective _ _ _)
  · intro ac
    constructor
    · intro hm
      simp only [expandConfigurations, List.mem_map] at hm
      obtain ⟨⟨⟨⟨⟨sf, sl⟩, sh⟩, d⟩, lg⟩, hmem, rfl⟩ := hm
      simp only [List.mem_product] at hmem
      simp [mkAtomicConfiguration] at hmem ⊢
      tauto
    · intro ⟨hl, hld, hs, hf, hlv, hsh, hd, hlg⟩
      simp only [expandConfigurations, List.mem_map]
      refine ⟨⟨⟨⟨⟨ac.specification_format, ac.specification_level⟩, ac.stakeholder⟩,
        ac.domain⟩, ac.language⟩, ?_, ?_⟩
      · simp only [List.mem_product]; tauto
      · simp only [mkAtomicConfiguration]
        cases ac
        simp_all

/-- C2 witness: two domains and single values elsewhere give exactly two
configurations, Banking first, with no duplicates. -/
theorem expandConfigurations_spec_witness :
    (expandConfigurations exampleSelection).length = 2 ∧
    (expandConfigurations exampleSelection).Nodup ∧
    (expandConfigurations exampleSelection).map AtomicConfiguration.domain =
      ["Banking", "Healthcare"] := by
  have h := expandConfigurations_spec exampleSelection
    (by decide) (by decide) (by decide) (by decide) (by decide)
  exact ⟨h.1.trans (by decide), h.2.1, by decide⟩

/-- C3: a `generation_complete` event ends generation, sets progress to
100, stores the event's payload as the results, leaves the error state
unchanged, and reports a shortfall only by appending the note to the
status text when the `fewer_samples_received` flag is set. -/
theorem generationComplete_effects (st : HookState) (samples : List Sample)
    (oc ofmt : String) (fewer : Bool) :
    (onMessage st (.generationComplete samples oc ofmt fewer)).isGenerating = false ∧
    (onMessage st (.generationComplete samples oc ofmt fewer)).progress = 100 ∧
    (onMessage st (.generationComplete samples oc ofmt fewer)).results =
      some { samples := samples, output_path := none, output_content := oc,
             output_format := ofmt, fewer_samples_received := fewer } ∧
    (onMessage st (.generationComplete samples oc ofmt fewer)).error = st.error ∧
    (onMessage st (.generationComplete samples oc ofmt fewer)).status =
      (if fewer then generationCompleteStatus samples.length ++ fewerSamplesNote
       else generationCompleteStatus samples.length) := by
  simp [onMessage]

/-- C4: `handleGenerate` attaches `optimized_atomic_prompts` (one
`{config, optimized_prompt}` entry per optimized prompt, in order) or a
single `optimized_prompt` only when the approach is PACE and the prompt
was optimized; in every other case the request carries just the form
features and the connection id. -/
theorem buildGenerateRequest_spec (fd : FormData) (opt : Bool)
    (l : List AtomicPrompt) (cp cid : String) :
    (buildGenerateRequest fd opt l cp cid).features = fd ∧
    (buildGenerateRequest fd opt l cp cid).connection_id = cid ∧
    ((buildGenerateRequest fd opt l cp cid).optimized_atomic_prompts ≠ none ∨
      (buildGenerateRequest fd opt l cp cid).optimized_prompt ≠ none →
        fd.prompt_approach = "PACE" ∧ opt = true) ∧
    (fd.prompt_approach = "PACE" → opt = true → l ≠ [] →
      (buildGenerateRequest fd opt l cp cid).optimized_atomic_prompts =
        some (l.map fun p => { config := p.config, optimized_prompt := p.prompt }) ∧
      (buildGenerateRequest fd opt l cp cid).optimized_prompt = none) ∧
    (fd.prompt_approach = "PACE" → opt = true → l = [] → cp ≠ "" →
      (buildGenerateRequest fd opt l cp cid).optimized_prompt = some cp ∧
      (buildGenerateRequest fd opt l cp cid).optimized_atomic_prompts = none) ∧
    (¬(fd.prompt_approach = "PACE" ∧ opt = true) ∨ (l = [] ∧ cp = "") →
      (buildGenerateRequest fd opt l cp cid).optimized_atomic_prompts = none ∧
      (buildGenerateRequest fd opt l cp cid).optimized_prompt = none) := by
  simp only [buildGenerateRequest]
  split_ifs with h1 h2 h3 <;>
    refine ⟨rfl, rfl, ?_, ?_, ?_, ?_⟩ <;> simp_all <;>
      try (rintro rfl; simp_all)

/-- C5: an `optimize_complete_batch` event maps `optimized_results`
element-wise and order-preservingly into `optimizedAtomicPrompts`
(config from `atomic_config`, prompt and score from the element), ends
optimization, sets progress to 100, marks the prompt optimized and
resets the prompt index to 0. -/
theorem optimizeCompleteBatch_effects (st : HookState) (rs : List OptimizedResult) :
    (onMessage st (.optimizeCompleteBatch rs)).optimizedAtomicPrompts =
      rs.map (fun r => { config := r.atomic_config, prompt := r.prompt,
                         score := r.score }) ∧
    (∀ i : Nat, (onMessage st (.optimizeCompleteBatch rs)).optimizedAtomicPrompts[i]? =
      rs[i]?.map fun r => { config := r.atomic_config, prompt := r.prompt,
                            score := r.score }) ∧
    (onMessage st (.optimizeCompleteBatch rs)).isOptimizingPrompt = false ∧
    (onMessage st (.optimizeCompleteBatch rs)).progress = 100 ∧
    (onMessage st (.optimizeCompleteBatch rs)).isPromptOptimized = true ∧
    (onMessage st (.optimizeCompleteBatch rs)).currentPromptIndex = 0 := by
  simp [onMessage]

/-- C6: a `prompt_update` event with an in-range `config_index` replaces
exactly that entry's prompt and score (config preserved) and leaves all
other entries, the list length and `currentPrompt` unchanged; with an
out-of-range index the list is unchanged; without an index only
`currentPrompt` is set and the list is unchanged. -/
theorem promptUpdate_effects (st : HookState) (ci : Option Nat) (p : String)
    (sc : Score) :
    (∀ i, ci = some i → i < st.atomicPrompts.length →
      (onMessage st (.promptUpdate ci p sc)).atomicPrompts[i]? =
        (st.atomicPrompts[i]?).map (fun old => { old with prompt := p, score := sc }) ∧
      (∀ j, j ≠ i → (onMessage st (.promptUpdate ci p sc)).atomicPrompts[j]? =
        st.atomicPrompts[j]?) ∧
      (onMessage st (.promptUpdate ci p sc)).atomicPrompts.length =
        st.atomicPrompts.length ∧
      (onMessage st (.promptUpdate ci p sc)).currentPrompt = st.currentPrompt) ∧
    (∀ i, ci = some i → ¬ i < st.atomicPrompts.length →
      (onMessage st (.promptUpdate ci p sc)).atomicPrompts = st.atomicPrompts) ∧
    (ci = none →
      (onMessage st (.promptUpdate ci p sc)).currentPrompt = p ∧
      (onMessage st (.promptUpdate ci p sc)).atomicPrompts = st.atomicPrompts) := by
  refine ⟨?_, ?_, ?_⟩
  · intro i hci hlt
    subst hci
    refine ⟨?_, ?_, ?_, ?_⟩
    · simp only [onMessage, updateAtomicPrompt, dif_pos hlt]
      rw [List.getElem?_set_eq_of_lt _ hlt]
      simp [List.getElem?_eq_getElem hlt]
    · intro j hj
      simp only [onMessage, updateAtomicPrompt, dif_pos hlt]
      exact List.getElem?_set_ne (fun he => hj he.symm)
    · simp [onMessage, updateAtomicPrompt, dif_pos hlt]
    · simp [onMessage]
  · intro i hci hge
    subst hci
    simp [onMessage, updateAtomicPrompt, dif_neg hge]
  · intro hci
    subst hci
    simp [onMessage]

/-- C7: an `error` event stores the message in the error state and ends
both optimization and generation, so an in-flight job reaches a terminal
state. -/
theorem errorEvent_effects (st : HookState) (msg : String) :
    (onMessage st (.error msg)).error = msg ∧
    (onMessage st (.error msg)).isOptimizingPrompt = false ∧
    (onMessage st (.error msg)).isGenerating = false := by
  simp [onMessage]

/-- C8: the sample-to-record mapping is lossless (injective, copying the
four fields text, label, domain, language exactly, and a record is
determined by those four fields), and downloading from `output_content`
produces a blob whose MIME type is `application/json` when
`output_format` is `"json"` and `text/csv` otherwise. -/
theorem sample_record_and_download (r : Results)
    (hp : optStrTruthy r.output_path = false) (hc : r.output_content ≠ "") :
    Function.Injective sampleToRecord ∧
    (∀ s : Sample, (sampleToRecord s).text = s.text ∧
      (sampleToRecord s).label = s.label ∧
      (sampleToRecord s).domain = s.domain ∧
      (sampleToRecord s).language = s.language) ∧
    (∀ r1 r2 : SampleRecord, r1.text = r2.text → r1.label = r2.label →
      r1.domain = r2.domain → r1.language = r2.language → r1 = r2) ∧
    handleDownload r = .blobDownload r.output_content
      (if r.output_format = "json" then "application/json" else "text/csv") := by
  refine ⟨?_, ?_, ?_, ?_⟩
  · intro a b h
    cases a; cases b
    simpa [sampleToRecord] using h
  · intro s; simp [sampleToRecord]
  · intro r1 r2 h1 h2 h3 h4; cases r1; cases r2; simp_all
  · simp [handleDownload, hp, hc]

/-- C8 witness: a JSON result without a saved path downloads as an
`application/json` blob carrying `output_content`. -/
theorem sample_record_and_download_witness :
    handleDownload exampleResults = .blobDownload "[]" "application/json" := by
  have h := sample_record_and_download exampleResults (by decide) (by decide)
  simpa [exampleResults] using h.2.2.2

/-- C9: editing the Samples Per Prompt input stores `max 1` of the
numeric input value, so the stored value is at least 1, and any sequence
of such edits from the initial form state keeps it at least 1. -/
theorem samplesPerPrompt_clamped (fd : FormData) (n : Int) (es : List Int) :
    (onSamplesPerPromptChange fd n).samples_per_prompt = max 1 n ∧
    1 ≤ (onSamplesPerPromptChange fd n).samples_per_prompt ∧
    1 ≤ (applySppEdits initialFormState es).samples_per_prompt :=
  ⟨rfl, le_max_left 1 n, applySppEdits_ge_one es initialFormState (by decide)⟩

/-- C10: for a non-empty atomic-prompt list and an in-range current
index, both the Previous and the Next button compute an index that is
again within `[0, length - 1]`. -/
theorem promptIndex_in_range (l : List AtomicPrompt) (i : Int)
    (hL : 1 ≤ (l.length : Int)) (h0 : 0 ≤ i) (h1 : i ≤ (l.length : Int) - 1) :
    0 ≤ prevPromptIndex i ∧ prevPromptIndex i ≤ (l.length : Int) - 1 ∧
    0 ≤ nextPromptIndex l i ∧ nextPromptIndex l i ≤ (l.length : Int) - 1 := by
  unfold prevPromptIndex nextPromptIndex
  omega

/-- C10 witness: with two atomic prompts and current index 1, both
buttons stay within range. -/
theorem promptIndex_in_range_witness :
    0 ≤ prevPromptIndex 1 ∧
    prevPromptIndex 1 ≤ (([examplePrompt, examplePrompt] : List AtomicPrompt).length : Int) - 1 ∧
    0 ≤ nextPromptIndex [examplePrompt, examplePrompt] 1 ∧
    nextPromptIndex [examplePrompt, examplePrompt] 1 ≤
      (([examplePrompt, examplePrompt] : List AtomicPrompt).length : Int) - 1 :=
  promptIndex_in_range [examplePrompt, examplePrompt] 1
    (by decide) (by decide) (by decide)

end Synthline
